import Mathlib

/-!
Verification of the subscription gateway handlers of `routes/subscription.go`
(wakapi). Each HTTP handler is embedded as a pure function over the
configuration, the authenticated principal and an oracle supplying the
results of the external billing-provider SDK calls (checkout session
creation, portal session creation, customer search/get, webhook event
construction, JSON unmarshalling). A handler returns the HTTP response it
writes together with the ordered trace of its observable actions: log
lines, provider calls, the local signature-verification attempt, the
payload-parse attempt, and a local-state write (which the source never
performs; the constructor exists so that its absence is a theorem, not a
vacuity of the model).
-/

namespace Wakapi

/-- The authenticated user, as delivered by the auth middleware
(`middlewares.GetPrincipal`); the handlers only read its email. -/
structure Principal where
  email : String
deriving DecidableEq, Repr

/-- The slice of `conf.Config` the handlers read: `Server.BasePath`,
`Server.PublicUrl`, `Subscriptions.StandardPriceId`,
`Subscriptions.StripeEndpointSecret`. -/
structure Config where
  basePath : String
  publicUrl : String
  standardPriceId : String
  endpointSecret : String
deriving DecidableEq, Repr

/-- One `stripe.CheckoutSessionLineItemParams`. -/
structure LineItem where
  price : String
  quantity : Nat
deriving DecidableEq, Repr

/-- The fields of `stripe.CheckoutSessionParams` the handler sets. -/
structure CheckoutSessionParams where
  mode : String
  lineItems : List LineItem
  customerEmail : String
  clientReferenceID : String
  successURL : String
  cancelURL : String
deriving DecidableEq, Repr

/-- A provider-hosted session; the handlers only read its URL. -/
structure HostedSession where
  url : String
deriving DecidableEq, Repr

/-- A `stripe.Customer`; the handlers read ID and email. -/
structure Customer where
  id : String
  email : String
deriving DecidableEq, Repr

/-- A `stripe.Subscription` as unmarshalled from a webhook payload; the
handler reads its ID and its customer's ID. -/
structure Subscription where
  id : String
  customerId : String
deriving DecidableEq, Repr

/-- A `stripe.Event` as returned by `webhook.ConstructEventWithOptions`:
its type string and the raw JSON of `event.Data.Raw`. -/
structure StripeEvent where
  type : String
  dataRaw : String
deriving DecidableEq, Repr

/-- The HTTP response a handler writes: the status code and, for
redirects, the Location target. -/
structure Response where
  status : Nat
  location : Option String
deriving DecidableEq, Repr

/-- Observable actions of a handler, in order of occurrence. Log lines
carry their format arguments; provider calls carry the request data the
source passes; `verifySignatureAttempt` marks the (local) signature check
inside `webhook.ConstructEventWithOptions`; `parsePayload` marks the
(local) `json.Unmarshal` of the embedded subscription; `stateWrite` would
mark a mutation of local persisted state, which the source never makes. -/
inductive Effect where
  | logErrorBodyRead
  | logErrorSigVerify
  | logInfoSubscriptionEvent (eventType subId custId custEmail : String)
  | logWarnUnhandled (eventType : String)
  | logErrorParsePayload
  | logErrorCustomerFetch (custId : String)
  | logInfoAssociated (custId custEmail : String)
  | logErrorCheckoutSession
  | logErrorPortalSession
  | providerCheckoutNew (p : CheckoutSessionParams)
  | providerPortalNew (customerId returnURL : String)
  | providerCustomerSearch (query : String)
  | providerCustomerGet (custId : String)
  | verifySignatureAttempt (sigHeader : String)
  | parsePayload (raw : String)
  | stateWrite
deriving DecidableEq, Repr

/-- The effect is an outbound call to the billing provider's API. The
signature check and the JSON unmarshal are local computations, not
provider calls. -/
def Effect.isProviderCall : Effect → Bool
  | .providerCheckoutNew _ => true
  | .providerPortalNew _ _ => true
  | .providerCustomerSearch _ => true
  | .providerCustomerGet _ => true
  | _ => false

/-- The effect is a fetch of a customer record from the provider
(`stripeCustomer.Get`). -/
def Effect.isCustomerGet : Effect → Bool
  | .providerCustomerGet _ => true
  | _ => false

/-- The effect is a creation of a billing-portal session
(`stripePortalSession.New`). -/
def Effect.isPortalNew : Effect → Bool
  | .providerPortalNew _ _ => true
  | _ => false

/-- The effect is a write to local persisted state. -/
def Effect.isStateWrite : Effect → Bool
  | .stateWrite => true
  | _ => false

/-- The effect is the signature-verification attempt. -/
def Effect.isVerifyAttempt : Effect → Bool
  | .verifySignatureAttempt _ => true
  | _ => false

/-- The effect is the attempt to unmarshal the embedded subscription
payload. -/
def Effect.isParseAttempt : Effect → Bool
  | .parsePayload _ => true
  | _ => false

/-- The effect is the `associated stripe customer ... with user ...`
info log line of `handleParseSubscription`. -/
def Effect.isAssociationLog : Effect → Bool
  | .logInfoAssociated _ _ => true
  | _ => false

/-- Results of the external SDK calls, supplied as inputs: the embedding
is parametric in everything the provider (or the JSON decoder) may
answer. `Except Unit` mirrors Go's `(value, err)` pairs. -/
structure StripeOracle where
  constructEvent : List Nat → String → String → Except Unit StripeEvent
  unmarshalSubscription : String → Except Unit Subscription
  customerGet : String → Except Unit Customer
  checkoutSessionNew : CheckoutSessionParams → Except Unit HostedSession
  portalSessionNew : String → String → Except Unit HostedSession
  customerSearch : String → Except Unit (List Customer)

/-- The redirect every interactive error path produces:
`http.Redirect(w, r, basePath + "/settings?error=" + msg + "#subscription", http.StatusFound)`. -/
def settingsErrorRedirect (cfg : Config) (msg : String) : Response :=
  { status := 302, location := some (cfg.basePath ++ "/settings?error=" ++ msg ++ "#subscription") }

/-- The `checkoutParams` local of `PostCheckout` (subscription.go:92-104):
subscription mode, one line item with the configured price, the
principal's email as customer email and client reference, and
success/cancel URLs built from the configured public URL and base path. -/
def checkoutParams (cfg : Config) (user : Principal) : CheckoutSessionParams :=
  { mode := "subscription"
    lineItems := [{ price := cfg.standardPriceId, quantity := 1 }]
    customerEmail := user.email
    clientReferenceID := user.email
    successURL := cfg.publicUrl ++ cfg.basePath ++ "/subscription/success"
    cancelURL := cfg.publicUrl ++ cfg.basePath ++ "/subscription/cancel" }

/-- `PostCheckout` (subscription.go:76-114). `formParseOk` is the outcome
of `r.ParseForm()`. The dev-mode template reload at the top touches no
state the handler's behaviour depends on and is omitted. -/
def PostCheckout (cfg : Config) (o : StripeOracle) (user : Principal)
    (formParseOk : Bool) : Response × List Effect :=
  if user.email = "" then
    (settingsErrorRedirect cfg "missing e-mail address", [])
  else if !formParseOk then
    (settingsErrorRedirect cfg "missing form values", [])
  else
    let params := checkoutParams cfg user
    match o.checkoutSessionNew params with
    | .error _ =>
        (settingsErrorRedirect cfg "something went wrong",
         [.providerCheckoutNew params, .logErrorCheckoutSession])
    | .ok session =>
        ({ status := 303, location := some session.url },
         [.providerCheckoutNew params])

/-- `findStripeCustomerByEmail` (subscription.go:214-231): searches the
provider with the query `email:"<email>"`; a search error or an empty
result set is an error, otherwise the first customer of the iteration is
returned. -/
def findStripeCustomerByEmail (o : StripeOracle) (email : String) :
    Except Unit Customer × List Effect :=
  let query := "email:\"" ++ email ++ "\""
  match o.customerSearch query with
  | .error _ => (.error (), [.providerCustomerSearch query])
  | .ok [] => (.error (), [.providerCustomerSearch query])
  | .ok (c :: _) => (.ok c, [.providerCustomerSearch query])

/-- `PostPortal` (subscription.go:116-146). -/
def PostPortal (cfg : Config) (o : StripeOracle) (user : Principal) :
    Response × List Effect :=
  if user.email = "" then
    (settingsErrorRedirect cfg
      "no subscription found with your e-mail address, please contact us!", [])
  else
    match findStripeCustomerByEmail o user.email with
    | (.error _, effs) =>
        (settingsErrorRedirect cfg
          "no subscription found with your e-mail address, please contact us!", effs)
    | (.ok customer, effs) =>
        match o.portalSessionNew customer.id cfg.publicUrl with
        | .error _ =>
            (settingsErrorRedirect cfg "something went wrong",
             effs ++ [.providerPortalNew customer.id cfg.publicUrl, .logErrorPortalSession])
        | .ok session =>
            ({ status := 303, location := some session.url },
             effs ++ [.providerPortalNew customer.id cfg.publicUrl])

/-- `handleParseSubscription` (subscription.go:194-212): unmarshal the
embedded subscription, fetch its customer from the provider, log the
association; on either failure it writes 400 (reported here through the
`Except` error, which the caller turns into the 400 response). -/
def handleParseSubscription (o : StripeOracle) (event : StripeEvent) :
    Except Unit (Subscription × Customer) × List Effect :=
  match o.unmarshalSubscription event.dataRaw with
  | .error _ =>
      (.error (), [.parsePayload event.dataRaw, .logErrorParsePayload])
  | .ok subscription =>
      match o.customerGet subscription.customerId with
      | .error _ =>
          (.error (),
           [.parsePayload event.dataRaw,
            .providerCustomerGet subscription.customerId,
            .logErrorCustomerFetch subscription.customerId])
      | .ok customer =>
          (.ok (subscription, customer),
           [.parsePayload event.dataRaw,
            .providerCustomerGet subscription.customerId,
            .logInfoAssociated customer.id customer.email])

/-- The three event type strings of the `switch` at subscription.go:166. -/
def recognizedSubscriptionEvent (t : String) : Bool :=
  t = "customer.subscription.deleted" ||
  t = "customer.subscription.updated" ||
  t = "customer.subscription.created"

/-- `PostWebhook` (subscription.go:148-184). The body is read through
`http.MaxBytesReader(w, r.Body, 65536)`, so `ioutil.ReadAll` fails
exactly when the body exceeds 65536 bytes or the underlying read fails
(`ioError`); then the signature is checked, then the event type is
dispatched. -/
def PostWebhook (cfg : Config) (o : StripeOracle) (body : List Nat)
    (ioError : Bool) (sigHeader : String) : Response × List Effect :=
  if ioError = true ∨ body.length > 65536 then
    ({ status := 503, location := none }, [.logErrorBodyRead])
  else
    match o.constructEvent body sigHeader cfg.endpointSecret with
    | .error _ =>
        ({ status := 400, location := none },
         [.verifySignatureAttempt sigHeader, .logErrorSigVerify])
    | .ok event =>
        if recognizedSubscriptionEvent event.type then
          match handleParseSubscription o event with
          | (.error _, effs) =>
              ({ status := 400, location := none },
               .verifySignatureAttempt sigHeader :: effs)
          | (.ok (subscription, customer), effs) =>
              ({ status := 200, location := none },
               .verifySignatureAttempt sigHeader :: effs ++
                 [.logInfoSubscriptionEvent event.type subscription.id
                    customer.id customer.email])
        else
          ({ status := 200, location := none },
           [.verifySignatureAttempt sigHeader, .logWarnUnhandled event.type])

/-- `GetCheckoutSuccess` (subscription.go:186-188). -/
def GetCheckoutSuccess (cfg : Config) : Response × List Effect :=
  ({ status := 302,
     location := some (cfg.basePath ++
       "/settings?success=you have successfully subscribed to Wakapi!#subscription") },
   [])

/-- `GetCheckoutCancel` (subscription.go:190-192). -/
def GetCheckoutCancel (cfg : Config) : Response × List Effect :=
  ({ status := 302, location := some (cfg.basePath ++ "/settings#subscription") }, [])

/-- A URL carries a query component (hence can encode a query flag) only
if it contains a question mark. Used to state the claim about the
success/cancel redirect endpoints. -/
def hasQueryComponent (url : String) : Bool :=
  url.toList.contains '?'

/-- A concrete configuration for evaluating the theorems: empty base
path, public URL `https://x.test`, configured price `price_123`. -/
def testConfig : Config :=
  { basePath := ""
    publicUrl := "https://x.test"
    standardPriceId := "price_123"
    endpointSecret := "whsec_test" }

/-- A concrete oracle on which every external call fails. -/
def failOracle : StripeOracle where
  constructEvent := fun _ _ _ => .error ()
  unmarshalSubscription := fun _ => .error ()
  customerGet := fun _ => .error ()
  checkoutSessionNew := fun _ => .error ()
  portalSessionNew := fun _ _ => .error ()
  customerSearch := fun _ => .error ()

/-- A concrete oracle on which every external call succeeds: the webhook
event is the given one, the unmarshalled subscription is `sub_1` for
customer `cus_1`, customer fetches echo the requested id. -/
def okOracle (ev : StripeEvent) : StripeOracle where
  constructEvent := fun _ _ _ => .ok ev
  unmarshalSubscription := fun _ => .ok { id := "sub_1", customerId := "cus_1" }
  customerGet := fun i => .ok { id := i, email := "a@b.com" }
  checkoutSessionNew := fun _ => .ok { url := "https://pay.example/checkout" }
  portalSessionNew := fun _ _ => .ok { url := "https://pay.example/portal" }
  customerSearch := fun _ => .ok [{ id := "cus_1", email := "a@b.com" }]

/-- A concrete recognized subscription event. -/
def createdEvent : StripeEvent :=
  { type := "customer.subscription.created", dataRaw := "\x7b\x7d" }

/-- C1: a webhook POST whose signature fails verification gets a 400
response; the trace is exactly the verification attempt followed by the
error log, so no customer fetch, no provider call and no state write
occur — nothing but logging and the local signature check. -/
theorem webhook_bad_signature_rejected (cfg : Config) (o : StripeOracle)
    (body : List Nat) (sig : String)
    (hlen : body.length ≤ 65536)
    (hsig : o.constructEvent body sig cfg.endpointSecret = .error ()) :
    (PostWebhook cfg o body false sig).1.status = 400 ∧
    (PostWebhook cfg o body false sig).2 =
      [.verifySignatureAttempt sig, .logErrorSigVerify] ∧
    ∀ e ∈ (PostWebhook cfg o body false sig).2,
      e.isCustomerGet = false ∧ e.isProviderCall = false ∧ e.isStateWrite = false := by
  have hguard : ¬ (false = true ∨ body.length > 65536) := by
    rintro (h | h)
    · exact Bool.noConfusion h
    · omega
  unfold PostWebhook
  rw [if_neg hguard, hsig]
  refine ⟨rfl, rfl, ?_⟩
  intro e he
  simp only [List.mem_cons, List.mem_singleton] at he
  rcases he with h | h | h
  · subst h; exact ⟨rfl, rfl, rfl⟩
  · subst h; exact ⟨rfl, rfl, rfl⟩
  · exact absurd h (List.not_mem_nil e)

/-- C1 witness: the theorem evaluated at the all-failing oracle with an
empty body. -/
theorem webhook_bad_signature_rejected_witness :
    (PostWebhook testConfig failOracle [] false "t=1,v1=bad").1.status = 400 ∧
    (PostWebhook testConfig failOracle [] false "t=1,v1=bad").2 =
      [.verifySignatureAttempt "t=1,v1=bad", .logErrorSigVerify] ∧
    ∀ e ∈ (PostWebhook testConfig failOracle [] false "t=1,v1=bad").2,
      e.isCustomerGet = false ∧ e.isProviderCall = false ∧ e.isStateWrite = false :=
  webhook_bad_signature_rejected testConfig failOracle [] "t=1,v1=bad"
    (by decide) rfl

/-- C2: a webhook body longer than 65536 bytes yields a 503
(service-unavailable) response and the trace is only the read-error log:
in particular no signature-verification attempt is made. -/
theorem webhook_oversized_body_unavailable (cfg : Config) (o : StripeOracle)
    (body : List Nat) (ioError : Bool) (sig : String)
    (hlen : body.length > 65536) :
    (PostWebhook cfg o body ioError sig).1.status = 503 ∧
    (PostWebhook cfg o body ioError sig).2 = [.logErrorBodyRead] ∧
    ∀ e ∈ (PostWebhook cfg o body ioError sig).2, e.isVerifyAttempt = false := by
  unfold PostWebhook
  rw [if_pos (Or.inr hlen)]
  refine ⟨rfl, rfl, ?_⟩
  intro e he
  simp only [List.mem_singleton] at he
  subst he
  rfl

/-- C2 witness: the theorem evaluated on a 65537-byte body. -/
theorem webhook_oversized_body_unavailable_witness :
    (List.replicate 65537 (0 : Nat)).length > 65536 ∧
    ((PostWebhook testConfig failOracle (List.replicate 65537 0) false "s").1.status = 503 ∧
     (PostWebhook testConfig failOracle (List.replicate 65537 0) false "s").2 =
       [.logErrorBodyRead] ∧
     ∀ e ∈ (PostWebhook testConfig failOracle (List.replicate 65537 0) false "s").2,
       e.isVerifyAttempt = false) :=
  ⟨by rw [List.length_replicate]; omega,
   webhook_oversized_body_unavailable testConfig failOracle _ false "s"
     (by rw [List.length_replicate]; omega)⟩

/-- C3: a principal with empty email is turned away from both checkout
and portal with a redirect to the settings page carrying an error query
parameter, and the effect trace is empty — no provider call is made. -/
theorem empty_email_no_provider_call (cfg : Config) (o : StripeOracle)
    (formParseOk : Bool) :
    (PostCheckout cfg o ⟨""⟩ formParseOk).1 =
      settingsErrorRedirect cfg "missing e-mail address" ∧
    (PostCheckout cfg o ⟨""⟩ formParseOk).2 = [] ∧
    (PostPortal cfg o ⟨""⟩).1 =
      settingsErrorRedirect cfg
        "no subscription found with your e-mail address, please contact us!" ∧
    (PostPortal cfg o ⟨""⟩).2 = [] := by
  refine ⟨?_, ?_, ?_, ?_⟩ <;> simp [PostCheckout, PostPortal]

/-- C10: a principal with a non-empty email whose form fails to parse is
redirected to the settings page with the `missing form values` error
parameter and the billing provider is never contacted. -/
theorem checkout_form_parse_failure (cfg : Config) (o : StripeOracle)
    (user : Principal) (hne : user.email ≠ "") :
    (PostCheckout cfg o user false).1 =
      settingsErrorRedirect cfg "missing form values" ∧
    (PostCheckout cfg o user false).2 = [] := by
  unfold PostCheckout
  rw [if_neg hne]
  exact ⟨rfl, rfl⟩

/-- C10 witness: the theorem evaluated at a concrete principal. -/
theorem checkout_form_parse_failure_witness :
    (PostCheckout testConfig failOracle ⟨"a@b.com"⟩ false).1 =
      settingsErrorRedirect testConfig "missing form values" ∧
    (PostCheckout testConfig failOracle ⟨"a@b.com"⟩ false).2 = [] :=
  checkout_form_parse_failure testConfig failOracle ⟨"a@b.com"⟩ (by decide)

/-- Helper: value of `handleParseSubscription` when the unmarshal and the
customer fetch both succeed. -/
theorem handleParseSubscription_ok (o : StripeOracle) (event : StripeEvent)
    (subscription : Subscription) (customer : Customer)
    (hsub : o.unmarshalSubscription event.dataRaw = .ok subscription)
    (hcust : o.customerGet subscription.customerId = .ok customer) :
    handleParseSubscription o event =
      (.ok (subscription, customer),
       [.parsePayload event.dataRaw,
        .providerCustomerGet subscription.customerId,
        .logInfoAssociated customer.id customer.email]) := by
  simp only [handleParseSubscription, hsub, hcust]

/-- Helper: value of `PostWebhook` on a recognized subscription event
whose payload parses and whose customer fetch succeeds. -/
theorem postWebhook_recognized_ok_eq (cfg : Config) (o : StripeOracle)
    (body : List Nat) (sig : String) (event : StripeEvent)
    (subscription : Subscription) (customer : Customer)
    (hlen : body.length ≤ 65536)
    (hev : o.constructEvent body sig cfg.endpointSecret = .ok event)
    (hrec : recognizedSubscriptionEvent event.type = true)
    (hsub : o.unmarshalSubscription event.dataRaw = .ok subscription)
    (hcust : o.customerGet subscription.customerId = .ok customer) :
    PostWebhook cfg o body false sig =
      ({ status := 200, location := none },
       [.verifySignatureAttempt sig,
        .parsePayload event.dataRaw,
        .providerCustomerGet subscription.customerId,
        .logInfoAssociated customer.id customer.email,
        .logInfoSubscriptionEvent event.type subscription.id customer.id customer.email]) := by
  have hlt : ¬ body.length > 65536 := by omega
  have h1 := handleParseSubscription_ok o event subscription customer hsub hcust
  simp [PostWebhook, hev, hrec, h1, hlt]

/-- C4: in the scenario with principal email `a@b.com`, configured price
`price_123`, public URL `https://x.test` and empty base path, a
successful form parse makes `PostCheckout` issue a checkout-session
request whose single line item references `price_123` with quantity 1,
whose success URL is `https://x.test/subscription/success` and whose
cancel URL is `https://x.test/subscription/cancel`. -/
theorem checkout_scenario_request (o : StripeOracle) :
    ∃ p : CheckoutSessionParams,
      Effect.providerCheckoutNew p ∈
        (PostCheckout testConfig o ⟨"a@b.com"⟩ true).2 ∧
      p.lineItems = [{ price := "price_123", quantity := 1 }] ∧
      p.mode = "subscription" ∧
      p.successURL = "https://x.test/subscription/success" ∧
      p.cancelURL = "https://x.test/subscription/cancel" := by
  refine ⟨checkoutParams testConfig ⟨"a@b.com"⟩, ?_, by decide, by decide,
    by decide, by decide⟩
  rcases hc : o.checkoutSessionNew (checkoutParams testConfig ⟨"a@b.com"⟩) with u | s <;>
    simp [PostCheckout, hc]

/-- C5: a webhook for a recognized subscription event whose payload
parses and whose customer fetch succeeds returns 200, logs exactly one
association line, and writes no local persisted state. -/
theorem webhook_recognized_single_association (cfg : Config) (o : StripeOracle)
    (body : List Nat) (sig : String) (event : StripeEvent)
    (subscription : Subscription) (customer : Customer)
    (hlen : body.length ≤ 65536)
    (hev : o.constructEvent body sig cfg.endpointSecret = .ok event)
    (hrec : recognizedSubscriptionEvent event.type = true)
    (hsub : o.unmarshalSubscription event.dataRaw = .ok subscription)
    (hcust : o.customerGet subscription.customerId = .ok customer) :
    (PostWebhook cfg o body false sig).1.status = 200 ∧
    (PostWebhook cfg o body false sig).2.countP Effect.isAssociationLog = 1 ∧
    ∀ e ∈ (PostWebhook cfg o body false sig).2, e.isStateWrite = false := by
  rw [postWebhook_recognized_ok_eq cfg o body sig event subscription customer
    hlen hev hrec hsub hcust]
  refine ⟨rfl, ?_, ?_⟩
  · simp [List.countP_cons, Effect.isAssociationLog]
  · intro e he
    simp only [List.mem_cons, List.not_mem_nil, or_false] at he
    rcases he with rfl | rfl | rfl | rfl | rfl <;> rfl

/-- C5 witness: the theorem evaluated at the all-succeeding oracle on a
`customer.subscription.created` event. -/
theorem webhook_recognized_single_association_witness :
    (PostWebhook testConfig (okOracle createdEvent) [] false "sig").1.status = 200 ∧
    (PostWebhook testConfig (okOracle createdEvent) [] false "sig").2.countP
      Effect.isAssociationLog = 1 ∧
    ∀ e ∈ (PostWebhook testConfig (okOracle createdEvent) [] false "sig").2,
      e.isStateWrite = false :=
  webhook_recognized_single_association testConfig (okOracle createdEvent) [] "sig"
    createdEvent ⟨"sub_1", "cus_1"⟩ ⟨"cus_1", "a@b.com"⟩
    (by decide) rfl (by decide) rfl rfl

/-- C6: once the signature verifies, the response status is 200, except
that for a recognized subscription event whose payload parse or customer
fetch fails (i.e. `handleParseSubscription` errors) it is 400. -/
theorem webhook_valid_sig_status (cfg : Config) (o : StripeOracle)
    (body : List Nat) (sig : String) (event : StripeEvent)
    (hlen : body.length ≤ 65536)
    (hev : o.constructEvent body sig cfg.endpointSecret = .ok event) :
    (PostWebhook cfg o body false sig).1.status =
      if recognizedSubscriptionEvent event.type = true ∧
         (handleParseSubscription o event).1.toOption = none
      then 400 else 200 := by
  have hlt : ¬ body.length > 65536 := by omega
  by_cases hrec : recognizedSubscriptionEvent event.type = true
  · rcases hps : handleParseSubscription o event with ⟨res, effs⟩
    rcases res with u | pc
    · simp [PostWebhook, hev, hrec, hps, hlt, Except.toOption]
    · rcases pc with ⟨s, c⟩
      simp [PostWebhook, hev, hrec, hps, hlt, Except.toOption]
  · simp [PostWebhook, hev, hrec, hlt]

/-- C6 witness: the theorem evaluated at the all-succeeding oracle. -/
theorem webhook_valid_sig_status_witness :
    (PostWebhook testConfig (okOracle createdEvent) [] false "sig").1.status =
      if recognizedSubscriptionEvent createdEvent.type = true ∧
         (handleParseSubscription (okOracle createdEvent) createdEvent).1.toOption = none
      then 400 else 200 :=
  webhook_valid_sig_status testConfig (okOracle createdEvent) [] "sig" createdEvent
    (by decide) rfl

/-- C7: a webhook whose event type is not one of the three recognized
subscription types returns 200 and its trace is exactly the verification
attempt and the warning log — no parse attempt, no customer fetch, no
state change. -/
theorem webhook_unrecognized_warn_only (cfg : Config) (o : StripeOracle)
    (body : List Nat) (sig : String) (event : StripeEvent)
    (hlen : body.length ≤ 65536)
    (hev : o.constructEvent body sig cfg.endpointSecret = .ok event)
    (hrec : recognizedSubscriptionEvent event.type = false) :
    (PostWebhook cfg o body false sig).1.status = 200 ∧
    (PostWebhook cfg o body false sig).2 =
      [.verifySignatureAttempt sig, .logWarnUnhandled event.type] ∧
    ∀ e ∈ (PostWebhook cfg o body false sig).2,
      e.isParseAttempt = false ∧ e.isCustomerGet = false ∧ e.isStateWrite = false := by
  have hlt : ¬ body.length > 65536 := by
    omega
  have htrace : PostWebhook cfg o body false sig =
      ({ status := 200, location := none },
       [.verifySignatureAttempt sig, .logWarnUnhandled event.type]) := by
    simp [PostWebhook, hev, hrec, hlt]
  rw [htrace]
  refine ⟨rfl, rfl, ?_⟩
  intro e he
  simp only [List.mem_cons, List.not_mem_nil, or_false] at he
  rcases he with rfl | rfl <;> exact ⟨rfl, rfl, rfl⟩

/-- C7 witness: the theorem evaluated on an `invoice.paid` event. -/
theorem webhook_unrecognized_warn_only_witness :
    (PostWebhook testConfig (okOracle ⟨"invoice.paid", "\x7b\x7d"⟩) [] false "sig").1.status = 200 ∧
    (PostWebhook testConfig (okOracle ⟨"invoice.paid", "\x7b\x7d"⟩) [] false "sig").2 =
      [.verifySignatureAttempt "sig", .logWarnUnhandled "invoice.paid"] ∧
    ∀ e ∈ (PostWebhook testConfig (okOracle ⟨"invoice.paid", "\x7b\x7d"⟩) [] false "sig").2,
      e.isParseAttempt = false ∧ e.isCustomerGet = false ∧ e.isStateWrite = false :=
  webhook_unrecognized_warn_only testConfig (okOracle ⟨"invoice.paid", "\x7b\x7d"⟩)
    [] "sig" ⟨"invoice.paid", "\x7b\x7d"⟩ (by decide) rfl (by decide)

/-- C8: the portal flow looks the customer up with the exact-email query
`email:"<email>"`; the lookup returns the first search result and errors
when the search fails or returns none; and on a failed lookup `PostPortal`
redirects to the settings page with the error parameter and never creates
a portal session. -/
theorem portal_lookup_first_match_or_error (cfg : Config) (o : StripeOracle)
    (user : Principal) (hne : user.email ≠ "") :
    (findStripeCustomerByEmail o user.email).2 =
      [.providerCustomerSearch ("email:\"" ++ user.email ++ "\"")] ∧
    (findStripeCustomerByEmail o user.email).1 =
      ((o.customerSearch ("email:\"" ++ user.email ++ "\"")).toOption.elim
        (.error ()) fun cs => cs.head?.elim (.error ()) Except.ok) ∧
    ((findStripeCustomerByEmail o user.email).1 = .error () →
      (PostPortal cfg o user).1 =
        settingsErrorRedirect cfg
          "no subscription found with your e-mail address, please contact us!" ∧
      ∀ e ∈ (PostPortal cfg o user).2, e.isPortalNew = false) := by
  rcases hs : o.customerSearch ("email:\"" ++ user.email ++ "\"") with u | cs
  · have hfind : findStripeCustomerByEmail o user.email =
        (.error (), [.providerCustomerSearch ("email:\"" ++ user.email ++ "\"")]) := by
      simp [findStripeCustomerByEmail, hs]
    have hport : PostPortal cfg o user =
        (settingsErrorRedirect cfg
          "no subscription found with your e-mail address, please contact us!",
         [.providerCustomerSearch ("email:\"" ++ user.email ++ "\"")]) := by
      simp [PostPortal, hne, hfind]
    refine ⟨by rw [hfind], by rw [hfind]; simp [hs, Except.toOption], ?_⟩
    intro _
    rw [hport]
    refine ⟨rfl, ?_⟩
    intro e he
    simp only [List.mem_singleton] at he
    subst he
    rfl
  · rcases cs with _ | ⟨c, rest⟩
    · have hfind : findStripeCustomerByEmail o user.email =
          (.error (), [.providerCustomerSearch ("email:\"" ++ user.email ++ "\"")]) := by
        simp [findStripeCustomerByEmail, hs]
      have hport : PostPortal cfg o user =
          (settingsErrorRedirect cfg
            "no subscription found with your e-mail address, please contact us!",
           [.providerCustomerSearch ("email:\"" ++ user.email ++ "\"")]) := by
        simp [PostPortal, hne, hfind]
      refine ⟨by rw [hfind], by rw [hfind]; simp [hs, Except.toOption], ?_⟩
      intro _
      rw [hport]
      refine ⟨rfl, ?_⟩
      intro e he
      simp only [List.mem_singleton] at he
      subst he
      rfl
    · have hfind : findStripeCustomerByEmail o user.email =
          (.ok c, [.providerCustomerSearch ("email:\"" ++ user.email ++ "\"")]) := by
        simp [findStripeCustomerByEmail, hs]
      refine ⟨by rw [hfind], by rw [hfind]; simp [hs, Except.toOption], ?_⟩
      intro hcontra
      rw [hfind] at hcontra
      exact absurd hcontra (by simp)

/-- C8 witness: the theorem evaluated at the all-failing oracle. -/
theorem portal_lookup_first_match_or_error_witness :
    (findStripeCustomerByEmail failOracle "a@b.com").2 =
      [.providerCustomerSearch ("email:\"" ++ "a@b.com" ++ "\"")] ∧
    (findStripeCustomerByEmail failOracle "a@b.com").1 =
      ((failOracle.customerSearch ("email:\"" ++ "a@b.com" ++ "\"")).toOption.elim
        (.error ()) fun cs => cs.head?.elim (.error ()) Except.ok) ∧
    ((findStripeCustomerByEmail failOracle "a@b.com").1 = .error () →
      (PostPortal testConfig failOracle ⟨"a@b.com"⟩).1 =
        settingsErrorRedirect testConfig
          "no subscription found with your e-mail address, please contact us!" ∧
      ∀ e ∈ (PostPortal testConfig failOracle ⟨"a@b.com"⟩).2, e.isPortalNew = false) :=
  portal_lookup_first_match_or_error testConfig failOracle ⟨"a@b.com"⟩ (by decide)

/-- C9 counterexample: the cancel endpoint's redirect URL (with empty
base path) is `/settings#subscription`, which has no query component at
all, so it encodes no cancel query flag for the frontend. -/
theorem cancel_redirect_lacks_query_flag :
    (GetCheckoutCancel testConfig).1.location = some "/settings#subscription" ∧
    hasQueryComponent "/settings#subscription" = false := by
  decide

/-- C9 (amended): both redirect endpoints are stateless (empty effect
trace) and produce fixed redirect URLs; the success URL carries a
`success` query flag, while the cancel URL is the bare settings page
with only a fragment and no query flag. -/
theorem redirect_endpoints_stateless_fixed (cfg : Config) :
    (GetCheckoutSuccess cfg).2 = [] ∧
    (GetCheckoutSuccess cfg).1 =
      { status := 302
        location := some (cfg.basePath ++
          "/settings?success=you have successfully subscribed to Wakapi!#subscription") } ∧
    hasQueryComponent ((GetCheckoutSuccess testConfig).1.location.getD "") = true ∧
    (GetCheckoutCancel cfg).2 = [] ∧
    (GetCheckoutCancel cfg).1 =
      { status := 302, location := some (cfg.basePath ++ "/settings#subscription") } ∧
    hasQueryComponent ((GetCheckoutCancel testConfig).1.location.getD "") = false :=
  ⟨rfl, rfl, by decide, rfl, rfl, by decide⟩

end Wakapi
